import Mathlib

/-
Verification development for the PhycoBot sequential-survey bot (src/main.py).
The sqlite tables, the module-level transport registry and the per-user
session dictionaries are embedded as explicit Lean state; each handler is a
pure state-transition function translated from the Python source.
-/

namespace PhycoBot

/-! ### Option-label encoding: Python `"|||".join` and `.split("|||")` -/

/-- The separator used by `add_poll` and `get_polls` is the string `"|||"`. -/
def sepChars : List Char := ['|', '|', '|']

/-- Python `"|||".join(options)`: concatenation with the three-pipe separator
between consecutive labels. -/
def joinSep : List (List Char) → List Char
  | [] => []
  | [x] => x
  | x :: y :: xs => x ++ '|' :: '|' :: '|' :: joinSep (y :: xs)

/-- Worker for Python `s.split("|||")`: leftmost, non-overlapping matches of the
separator cut the string; `acc` holds the current chunk reversed. -/
def splitGo : List Char → List Char → List (List Char)
  | [], acc => [acc.reverse]
  | '|' :: '|' :: '|' :: rest, acc => acc.reverse :: splitGo rest []
  | c :: rest, acc => splitGo rest (c :: acc)

/-- Python `s.split("|||")`. -/
def splitSep (s : List Char) : List (List Char) := splitGo s []

/-- Whether the three-character separator `"|||"` occurs as a substring. -/
def containsSep : List Char → Bool
  | [] => false
  | c :: rest => ((c == '|') && (rest.take 2 == ['|', '|'])) || containsSep rest

/-! ### Data model: the sqlite tables of `init_db` -/

/-- One row of the `answers` table: `(poll_id, user_id, option_index, run_id)`. -/
structure Answer where
  poll_id : Nat
  user_id : Nat
  option_index : Nat
  run_id : Nat
deriving DecidableEq

/-- One row of the `polls` table; `options` is the single stored string joined
with `"|||"`. -/
structure PollRow where
  id : Nat
  question : String
  options : List Char
  poll_type : String
deriving DecidableEq

/-- A poll as returned by `get_polls`: options recovered by splitting. -/
structure PollView where
  id : Nat
  question : String
  options : List (List Char)
deriving DecidableEq

/-- Database state: both tables plus the AUTOINCREMENT counter for `polls.id`.
Rows are kept in insertion order, which for `polls` coincides with the
`ORDER BY id` of `get_polls` because ids are assigned increasingly. -/
structure DB where
  polls : List PollRow
  answers : List Answer
  nextPollId : Nat
deriving DecidableEq

/-- `get_polls`: all polls, options split on `"|||"`. -/
def get_polls (db : DB) : List PollView :=
  db.polls.map (fun r => { id := r.id, question := r.question, options := splitSep r.options })

/-- `save_answer`: INSERT one row into `answers`. -/
def save_answer (db : DB) (poll_id user_id option_index run_id : Nat) : DB :=
  { db with answers := db.answers ++ [⟨poll_id, user_id, option_index, run_id⟩] }

/-- `get_user_runs`: `SELECT COUNT(DISTINCT run_id) FROM answers WHERE user_id = ?`
plus one ("the current pass is not saved yet"). -/
def get_user_runs (db : DB) (user_id : Nat) : Nat :=
  ((db.answers.filter (fun a => a.user_id == user_id)).map (fun a => a.run_id)).dedup.length + 1

/-- One step of SQL `GROUP BY option_index` with `COUNT(*)`: bump the count
stored under key `k`, inserting the key on first sight. -/
def bump : List (Nat × Nat) → Nat → List (Nat × Nat)
  | [], k => [(k, 1)]
  | (k', c) :: rest, k => if k = k' then (k', c + 1) :: rest else (k', c) :: bump rest k

/-- `get_poll_stats`: rows of `answers` for the poll, grouped by `option_index`
with their counts, as the dictionary built from the SQL result. -/
def get_poll_stats (db : DB) (poll_id : Nat) : List (Nat × Nat) :=
  (db.answers.filter (fun a => a.poll_id == poll_id)).foldl (fun acc a => bump acc a.option_index) []

/-- Python `stats.get(j, 0)` on the dictionary returned by `get_poll_stats`. -/
def statsGet : List (Nat × Nat) → Nat → Nat
  | [], _ => 0
  | (k, c) :: rest, j => if k = j then c else statsGet rest j

/-- `add_poll`: INSERT a poll whose options are stored joined with `"|||"`. -/
def add_poll (db : DB) (question : String) (options : List (List Char)) (poll_type : String) : DB :=
  { db with
      polls := db.polls ++ [⟨db.nextPollId, question, joinSep options, poll_type⟩],
      nextPollId := db.nextPollId + 1 }

/-- `clear_all_answers`: `DELETE FROM answers`. -/
def clear_all_answers (db : DB) : DB := { db with answers := [] }

/-! ### Process state: session dictionaries, pending-poll registry, transport -/

/-- The per-user `context.user_data` dictionary: the three keys the handlers
use, each possibly absent. -/
structure UserData where
  polls : Option (List PollView)
  run_id : Option Nat
  current_poll_index : Option Nat
deriving DecidableEq

/-- Whole-process state: database, the module-level `poll_id_mapping` from
transport poll id to `(db_id, index)`, and the per-user dictionaries
(`none` models `context.user_data is None`). -/
structure BotState where
  db : DB
  poll_id_mapping : String → Option (Nat × Nat)
  user_data : Nat → Option UserData

/-- Replace the whole per-user dictionary of one user. -/
def setUserData (st : BotState) (u : Nat) (d : UserData) : BotState :=
  { st with user_data := fun x => if x = u then some d else st.user_data x }

/-- `poll_id_mapping[tid] = {db_id, index}`. -/
def registerPoll (st : BotState) (tid : String) (db_id idx : Nat) : BotState :=
  { st with poll_id_mapping := fun t => if t = tid then some (db_id, idx) else st.poll_id_mapping t }

/-- Outbound transport requests issued by the handlers. -/
inductive Msg where
  | text : Nat → String → Msg
  | textKb : Nat → String → List (List (String × String)) → Msg
  | pollMsg : Nat → String → List (List Char) → String → Msg
  | edit : String → List (List (String × String)) → Msg
deriving DecidableEq

/-- `keyboard_finish`: buttons of the completion screen, as (label, callback). -/
def keyboard_finish : List (List (String × String)) :=
  [[("🔄 Запустить снова", "restart")],
   [("📊 Статистика", "stats")],
   [("🗑 Сброс данных", "reset_ask_finish")]]

/-- `keyboard_stats`: buttons under the statistics message. -/
def keyboard_stats : List (List (String × String)) :=
  [[("🔄 Запустить снова", "restart")],
   [("🗑 Сброс данных", "reset_ask_stats")]]

/-- The yes/no confirmation keyboard built inline in `button_handler`. -/
def keyboard_confirm (no_callback : String) : List (List (String × String)) :=
  [[("Да", "reset_yes"), ("Нет", no_callback)]]

/-! ### Handlers -/

/-- `send_poll`: past the end of the list send the completion message with the
finish keyboard, otherwise send the poll at `poll_index` and register the
freshly assigned transport id in `poll_id_mapping`. -/
def send_poll (st : BotState) (chat_id poll_index : Nat) (polls : List PollView) (tid : String) :
    BotState × List Msg :=
  if h : polls.length ≤ poll_index then
    (st, [Msg.textKb chat_id "Опрос пройден успешно!" keyboard_finish])
  else
    let pd := polls.get ⟨poll_index, Nat.lt_of_not_le h⟩
    (registerPoll st tid pd.id poll_index, [Msg.pollMsg chat_id pd.question pd.options tid])

/-- `start`: on an empty catalog reply with a notice and stop; otherwise store
the snapshot, the freshly computed run number and position 0 in the user
dictionary (when it exists) and dispatch poll 0. -/
def start (st : BotState) (user_id chat_id : Nat) (tid : String) : BotState × List Msg :=
  let polls := get_polls st.db
  if polls = [] then
    (st, [Msg.text chat_id "Опросы не найдены в базе данных"])
  else
    let run_id := get_user_runs st.db user_id
    let st1 := match st.user_data user_id with
      | some _ => setUserData st user_id ⟨some polls, some run_id, some 0⟩
      | none => st
    let r := send_poll st1 chat_id 0 polls tid
    (r.1, Msg.text chat_id ("Прохождение #" ++ toString run_id ++ ". Начинаем!") :: r.2)

/-- `restart_survey`: identical to `start` except that messages go through
`bot.send_message`. -/
def restart_survey (st : BotState) (chat_id user_id : Nat) (tid : String) : BotState × List Msg :=
  let polls := get_polls st.db
  if polls = [] then
    (st, [Msg.text chat_id "Опросы не найдены в базе данных"])
  else
    let run_id := get_user_runs st.db user_id
    let st1 := match st.user_data user_id with
      | some _ => setUserData st user_id ⟨some polls, some run_id, some 0⟩
      | none => st
    let r := send_poll st1 chat_id 0 polls tid
    (r.1, Msg.text chat_id ("Прохождение #" ++ toString run_id ++ ". Начинаем!") :: r.2)

/-- `user_data.get('run_id', 1)`, defaulting also when the dictionary is absent. -/
def current_run (st : BotState) (u : Nat) : Nat :=
  match st.user_data u with
  | some ud => ud.run_id.getD 1
  | none => 1

/-- `user_data.get('polls', [])`, defaulting also when the dictionary is absent. -/
def session_polls (st : BotState) (u : Nat) : List PollView :=
  match st.user_data u with
  | some ud => ud.polls.getD []
  | none => []

/-- `handle_poll_answer` with an explicit storage-failure oracle: `failAt = some k`
means the k-th `save_answer` INSERT of this event raises. Each INSERT commits
its own connection, so on a failure the rows already inserted persist, the
exception aborts the handler (no position update, no next poll), and the
Boolean result reports whether the handler ran to completion. -/
def handle_poll_answer_fallible (st : BotState) (real_poll_id : String) (user_id : Nat)
    (option_ids : Option (List Nat)) (freshTid : String) (failAt : Option Nat) :
    BotState × List Msg × Bool :=
  match st.poll_id_mapping real_poll_id with
  | none => (st, [], true)
  | some (db_id, poll_index) =>
    let run_id := current_run st user_id
    let opts := option_ids.getD []
    let saved := match failAt with
      | none => opts.length
      | some k => min k opts.length
    let db1 := (opts.take saved).foldl (fun d o => save_answer d db_id user_id o run_id) st.db
    let st1 := { st with db := db1 }
    if failAt.any (fun k => decide (k < opts.length)) then
      (st1, [], false)
    else
      let polls := session_polls st user_id
      let next_index := poll_index + 1
      let st2 := match st1.user_data user_id with
        | some ud => setUserData st1 user_id { ud with current_poll_index := some next_index }
        | none => st1
      let r := send_poll st2 user_id next_index polls freshTid
      (r.1, r.2, true)

/-- `handle_poll_answer` as written (no storage failure). -/
def handle_poll_answer (st : BotState) (real_poll_id : String) (user_id : Nat)
    (option_ids : Option (List Nat)) (freshTid : String) : BotState × List Msg :=
  let r := handle_poll_answer_fallible st real_poll_id user_id option_ids freshTid none
  (r.1, r.2.1)

/-! ### Reporting -/

/-- The per-poll block of `get_stats_text`: the `(label, count)` rows in option
order with `count = stats.get(j, 0)`, and the accumulated `total_votes`. -/
def poll_section (db : DB) (p : PollView) : List (List Char × Nat) × Nat :=
  let stats := get_poll_stats db p.id
  let rows := p.options.enum.map (fun jo => (jo.2, statsGet stats jo.1))
  (rows, (rows.map (fun r => r.2)).foldl (fun acc c => acc + c) 0)

/-- The rendered text of one poll section. -/
def poll_section_text (db : DB) (i : Nat) (p : PollView) : String :=
  let sec := poll_section db p
  "**" ++ toString (i + 1) ++ ". " ++ p.question ++ "**\n"
    ++ "| Вариант | Голосов |\n" ++ "|---------|--------|\n"
    ++ String.join (sec.1.map (fun r => "| " ++ String.mk r.1 ++ " | " ++ toString r.2 ++ " |\n"))
    ++ "**Всего голосов: " ++ toString sec.2 ++ "**\n\n"

/-- `get_stats_text`: header plus one section per poll in catalog order. -/
def get_stats_text (db : DB) : String :=
  "📊 **Статистика опросов**\n\n"
    ++ String.join ((get_polls db).enum.map (fun ip => poll_section_text db ip.1 ip.2))

/-- `button_handler`: dispatch on `query.data`. -/
def button_handler (st : BotState) (data : String) (user_id chat_id : Nat) (tid : String) :
    BotState × List Msg :=
  if data = "restart" then restart_survey st chat_id user_id tid
  else if data = "stats" then (st, [Msg.edit (get_stats_text st.db) keyboard_stats])
  else if data = "reset_ask_finish" ∨ data = "reset_ask_stats" then
    let no_callback := if data = "reset_ask_finish" then "reset_no_finish" else "reset_no_stats"
    (st, [Msg.edit "Вы уверены? Это действие удалит данные статистики." (keyboard_confirm no_callback)])
  else if data = "reset_yes" then
    ({ st with db := clear_all_answers st.db }, [Msg.edit "Данные сброшены." keyboard_finish])
  else if data = "reset_no_finish" then
    (st, [Msg.edit "Опрос пройден успешно!" keyboard_finish])
  else if data = "reset_no_stats" then
    (st, [Msg.edit (get_stats_text st.db) keyboard_stats])
  else (st, [])

/-! ### Spec-side definitions (from the words of the spec, for comparison) -/

/-- Number of distinct run numbers for which the user has at least one
recorded Answer (spec `runsCompletedBy`). -/
def distinctRunsWithAnswer (db : DB) (u : Nat) : Nat :=
  ((db.answers.filter (fun a => a.user_id == u)).map (fun a => a.run_id)).toFinset.card

/-- The maximum run number previously recorded for the user (0 when none). -/
def maxRunRecorded (db : DB) (u : Nat) : Nat :=
  ((db.answers.filter (fun a => a.user_id == u)).map (fun a => a.run_id)).foldr max 0

/-- Spec `tally(poll)`: number of recorded Answer rows for the poll with the
given option index, across all users and all runs. -/
def tallySpec (db : DB) (pid j : Nat) : Nat :=
  db.answers.countP (fun a => a.poll_id == pid && a.option_index == j)

/-! ### Concrete states for counterexamples and witnesses -/

/-- A seeded poll viewed through `get_polls`. -/
def pvA : PollView := { id := 1, question := "Q1", options := [['A'], ['B']] }

/-- The same poll as a stored row. -/
def rowA : PollRow :=
  { id := 1, question := "Q1", options := joinSep [['A'], ['B']], poll_type := "general" }

/-- Catalog with one poll and no answers. -/
def dbA : DB := { polls := [rowA], answers := [], nextPollId := 2 }

/-- Empty database. -/
def dbEmpty : DB := { polls := [], answers := [], nextPollId := 1 }

/-- State for the C1 counterexample: transport id `"t1"` registered at position 0,
while the session of user 7 is at position 5 (a position mismatch). -/
def stC1 : BotState :=
  { db := dbA,
    poll_id_mapping := fun t => if t = "t1" then some (1, 0) else none,
    user_data := fun u =>
      if u = 7 then some { polls := some [pvA], run_id := some 1, current_poll_index := some 5 }
      else none }

/-- State for the C2 counterexample: user 7 in run 1 at position 0, poll
dispatched as `"t1"`. -/
def stC2 : BotState :=
  { db := dbA,
    poll_id_mapping := fun t => if t = "t1" then some (1, 0) else none,
    user_data := fun u =>
      if u = 7 then some { polls := some [pvA], run_id := some 1, current_poll_index := some 0 }
      else none }

/-- State for the C3 counterexample: user 7 has answers recorded for run 1 only
and is mid-run. -/
def stC3 : BotState :=
  { db := { polls := [rowA], answers := [⟨1, 7, 0, 1⟩], nextPollId := 2 },
    poll_id_mapping := fun _ => none,
    user_data := fun u =>
      if u = 7 then some { polls := some [pvA], run_id := some 1, current_poll_index := some 1 }
      else none }

/-- Second state for the C3 counterexample: the only recorded answer of user 7
carries run number 3 (an in-flight session can keep a high run number across a
global reset), so the maximum recorded run is 3 while only one distinct run
exists. -/
def stC3b : BotState :=
  { db := { polls := [rowA], answers := [⟨1, 7, 0, 3⟩], nextPollId := 2 },
    poll_id_mapping := fun _ => none,
    user_data := fun u =>
      if u = 7 then some { polls := some [pvA], run_id := some 3, current_poll_index := some 1 }
      else none }

/-- State for the C5 counterexample: a registered poll awaiting the answer of
user 7 at position 0. -/
def stC5 : BotState :=
  { db := dbA,
    poll_id_mapping := fun t => if t = "t1" then some (1, 0) else none,
    user_data := fun u =>
      if u = 7 then some { polls := some [pvA], run_id := some 1, current_poll_index := some 0 }
      else none }

/-- Witness state for C1: nothing registered in the pending-poll registry. -/
def stW1 : BotState :=
  { db := dbA, poll_id_mapping := fun _ => none,
    user_data := fun u =>
      if u = 7 then some { polls := some [pvA], run_id := some 1, current_poll_index := some 0 }
      else none }

/-- Witness state for C4/C3: user 7 present with an empty dictionary and no
recorded answers. -/
def stW4 : BotState :=
  { db := dbA, poll_id_mapping := fun _ => none,
    user_data := fun u =>
      if u = 7 then some { polls := none, run_id := none, current_poll_index := none }
      else none }

/-- Witness state for C8: empty catalog. -/
def stW8 : BotState :=
  { db := dbEmpty, poll_id_mapping := fun _ => none, user_data := fun _ => none }

/-! ### Lemmas on the separator encoding -/

theorem splitGo_cons_ne (c : Char) (rest acc : List Char)
    (h : ¬(c = '|' ∧ rest.take 2 = ['|', '|'])) :
    splitGo (c :: rest) acc = splitGo rest (c :: acc) := by
  apply splitGo.eq_3
  intro r1 hc hr
  exact h ⟨hc, by rw [hr]; rfl⟩

theorem containsSep_false_head (c : Char) (rest : List Char)
    (h : containsSep (c :: rest) = false) :
    ¬(c = '|' ∧ rest.take 2 = ['|', '|']) ∧ containsSep rest = false := by
  simp only [containsSep, Bool.or_eq_false_iff, Bool.and_eq_false_iff] at h
  refine ⟨?_, h.2⟩
  rintro ⟨hc, ht⟩
  rcases h.1 with h' | h'
  · simp [hc] at h'
  · simp [ht] at h'

theorem splitGo_no_sep (x : List Char) (hx : containsSep x = false) :
    ∀ acc, splitGo x acc = [acc.reverse ++ x] := by
  induction x with
  | nil => intro acc; simp [splitGo]
  | cons c rest ih =>
    intro acc
    obtain ⟨h1, h2⟩ := containsSep_false_head c rest hx
    rw [splitGo_cons_ne c rest acc h1, ih h2]
    simp

theorem splitGo_chunk (x : List Char) (s : List Char) (hx : containsSep x = false)
    (hlast : x.getLast? ≠ some '|') :
    ∀ acc, splitGo (x ++ '|' :: '|' :: '|' :: s) acc = (acc.reverse ++ x) :: splitGo s [] := by
  induction x with
  | nil => intro acc; simp [splitGo]
  | cons c rest ih =>
    intro acc
    obtain ⟨h1, h2⟩ := containsSep_false_head c rest hx
    have hlast' : rest.getLast? ≠ some '|' := by
      cases rest with
      | nil => simp
      | cons c2 rest2 => rw [← List.getLast?_cons_cons (a := c)]; exact hlast
    have hcond : ¬(c = '|' ∧ (rest ++ '|' :: '|' :: '|' :: s).take 2 = ['|', '|']) := by
      rintro ⟨hc, ht⟩
      rcases rest with _ | ⟨c2, _ | ⟨c3, r⟩⟩
      · subst hc; simp at hlast
      · simp at ht
        subst hc; rw [ht] at hlast; simp at hlast
      · simp at ht
        exact h1 ⟨hc, by rw [ht.1, ht.2]; rfl⟩
    rw [List.cons_append, splitGo_cons_ne c _ acc hcond, ih h2 hlast']
    simp

theorem splitSep_joinSep (opts : List (List Char)) (h0 : opts ≠ [])
    (h1 : ∀ l ∈ opts, containsSep l = false)
    (h2 : ∀ l ∈ opts.dropLast, l.getLast? ≠ some '|') :
    splitSep (joinSep opts) = opts := by
  induction opts with
  | nil => exact absurd rfl h0
  | cons x ys ih =>
    cases ys with
    | nil =>
      have hx := splitGo_no_sep x (h1 x (by simp)) []
      simpa [splitSep, joinSep] using hx
    | cons y zs =>
      have hx : containsSep x = false := h1 x (by simp)
      have hxl : x.getLast? ≠ some '|' := by
        apply h2
        rw [List.dropLast_cons₂]
        simp
      show splitGo (joinSep (x :: y :: zs)) [] = x :: y :: zs
      rw [show joinSep (x :: y :: zs) = x ++ '|' :: '|' :: '|' :: joinSep (y :: zs) from rfl]
      rw [splitGo_chunk x _ hx hxl []]
      simp only [List.reverse_nil, List.nil_append]
      congr 1
      apply ih (by simp)
      · intro l hl; exact h1 l (List.mem_cons_of_mem x hl)
      · intro l hl
        apply h2
        rw [List.dropLast_cons₂]
        exact List.mem_cons_of_mem x hl

/-! ### Lemmas on the GROUP BY aggregation -/

theorem statsGet_bump (acc : List (Nat × Nat)) (k j : Nat) :
    statsGet (bump acc k) j = statsGet acc j + if k = j then 1 else 0 := by
  induction acc with
  | nil => by_cases h : k = j <;> simp [bump, statsGet, h]
  | cons p rest ih =>
    obtain ⟨k', c⟩ := p
    by_cases hk : k = k'
    · subst hk
      by_cases hj : k = j <;> simp [bump, statsGet, hj]
    · by_cases hj : k' = j
      · have hkj : k ≠ j := fun h => hk (h.trans hj.symm)
        simp [bump, statsGet, hk, hj, hkj]
      · simp [bump, statsGet, hk, hj, ih]

theorem statsGet_foldl (l : List Answer) :
    ∀ acc j, statsGet (l.foldl (fun c a => bump c a.option_index) acc) j
      = statsGet acc j + l.countP (fun a => a.option_index == j) := by
  induction l with
  | nil => intro acc j; simp
  | cons a t ih =>
    intro acc j
    simp only [List.foldl_cons, List.countP_cons]
    rw [ih, statsGet_bump]
    by_cases h : a.option_index = j
    · simp [h]
      omega
    · simp [h]

theorem statsGet_get_poll_stats (db : DB) (pid j : Nat) :
    statsGet (get_poll_stats db pid) j
      = db.answers.countP (fun a => a.poll_id == pid && a.option_index == j) := by
  unfold get_poll_stats
  rw [statsGet_foldl]
  rw [List.countP_filter]
  simp only [statsGet, Nat.zero_add]
  congr 1
  funext a
  rw [Bool.and_comm]

theorem countP_lt_succ (l : List Answer) (pid n : Nat) :
    l.countP (fun a => a.poll_id == pid && decide (a.option_index < n + 1))
      = l.countP (fun a => a.poll_id == pid && decide (a.option_index < n))
        + l.countP (fun a => a.poll_id == pid && a.option_index == n) := by
  induction l with
  | nil => simp
  | cons a t ih =>
    simp only [List.countP_cons]
    rw [ih]
    by_cases h1 : a.poll_id = pid
    · by_cases h2 : a.option_index < n
      · have h3 : a.option_index ≠ n := by omega
        have h4 : a.option_index < n + 1 := by omega
        simp [h1, h2, h3, h4]
        omega
      · by_cases h3 : a.option_index = n
        · have h4 : a.option_index < n + 1 := by omega
          simp [h1, h2, h3, h4]
          omega
        · have h4 : ¬(a.option_index < n + 1) := by omega
          simp [h1, h2, h3, h4]
    · simp [h1]

theorem sum_stats_range (db : DB) (pid : Nat) :
    ∀ n, ((List.range n).map (fun j => statsGet (get_poll_stats db pid) j)).foldl
        (fun acc c => acc + c) 0
      = db.answers.countP (fun a => a.poll_id == pid && decide (a.option_index < n)) := by
  intro n
  induction n with
  | zero => simp
  | succ n ih =>
    rw [List.range_succ, List.map_append, List.foldl_append]
    simp only [List.map_cons, List.map_nil, List.foldl_cons, List.foldl_nil]
    rw [ih, statsGet_get_poll_stats, countP_lt_succ]

theorem countP_split_valid (l : List Answer) (pid n : Nat) :
    l.countP (fun a => a.poll_id == pid && decide (a.option_index < n))
      + l.countP (fun a => a.poll_id == pid && decide (n ≤ a.option_index))
      = l.countP (fun a => a.poll_id == pid) := by
  induction l with
  | nil => simp
  | cons a t ih =>
    simp only [List.countP_cons]
    by_cases h1 : a.poll_id = pid
    · by_cases h2 : a.option_index < n
      · have h3 : ¬(n ≤ a.option_index) := by omega
        simp [h1, h2, h3]
        omega
      · have h3 : n ≤ a.option_index := by omega
        simp [h1, h2, h3]
        omega
    · simp [h1]
      omega

theorem poll_section_total (db : DB) (p : PollView) :
    (poll_section db p).2
      = db.answers.countP (fun a => a.poll_id == p.id && decide (a.option_index < p.options.length)) := by
  unfold poll_section
  simp only [List.map_map]
  have hcomp :
      ((fun r : List Char × Nat => r.2) ∘ fun jo : Nat × List Char =>
          (jo.2, statsGet (get_poll_stats db p.id) jo.1))
        = (fun j => statsGet (get_poll_stats db p.id) j) ∘ Prod.fst := rfl
  rw [hcomp, ← List.map_map, List.enum_map_fst]
  exact sum_stats_range db p.id p.options.length

/-! ### Lemmas on the handlers -/

theorem send_poll_db (st : BotState) (c i : Nat) (p : List PollView) (t : String) :
    (send_poll st c i p t).1.db = st.db := by
  unfold send_poll
  split <;> rfl

theorem send_poll_user_data (st : BotState) (c i : Nat) (p : List PollView) (t : String) :
    (send_poll st c i p t).1.user_data = st.user_data := by
  unfold send_poll
  split <;> rfl

theorem restart_survey_db (st : BotState) (c u : Nat) (t : String) :
    (restart_survey st c u t).1.db = st.db := by
  unfold restart_survey
  by_cases h : get_polls st.db = []
  · simp [h]
  · cases hu : st.user_data u <;> simp [h, hu, send_poll_db, setUserData]

theorem restart_survey_user_data (st : BotState) (c u : Nat) (t : String) (ud : UserData)
    (hpolls : get_polls st.db ≠ []) (hud : st.user_data u = some ud) :
    (restart_survey st c u t).1.user_data u
      = some { polls := some (get_polls st.db), run_id := some (get_user_runs st.db u),
               current_poll_index := some 0 } := by
  unfold restart_survey
  simp [hpolls, hud, send_poll_user_data, setUserData]

theorem start_user_data (st : BotState) (u c : Nat) (t : String) (ud : UserData)
    (hpolls : get_polls st.db ≠ []) (hud : st.user_data u = some ud) :
    (start st u c t).1.user_data u
      = some { polls := some (get_polls st.db), run_id := some (get_user_runs st.db u),
               current_poll_index := some 0 } := by
  unfold start
  simp [hpolls, hud, send_poll_user_data, setUserData]

theorem get_user_runs_eq_distinct (db : DB) (u : Nat) :
    get_user_runs db u = distinctRunsWithAnswer db u + 1 := by
  unfold get_user_runs distinctRunsWithAnswer
  rw [List.card_toFinset]

theorem get_user_runs_no_answers (db : DB) (u : Nat)
    (h : db.answers.filter (fun a => a.user_id == u) = []) :
    get_user_runs db u = 1 := by
  unfold get_user_runs
  rw [h]
  rfl

theorem foldl_save_answer (db : DB) (db_id u run : Nat) :
    ∀ l : List Nat,
      l.foldl (fun d o => save_answer d db_id u o run) db
        = { db with answers := db.answers ++ l.map (fun o => Answer.mk db_id u o run) } := by
  intro l
  induction l generalizing db with
  | nil => simp
  | cons o t ih =>
    simp only [List.foldl_cons, List.map_cons]
    rw [ih]
    simp [save_answer]

theorem handle_poll_answer_unregistered (st : BotState) (tid : String) (u : Nat)
    (opts : Option (List Nat)) (fresh : String)
    (h : st.poll_id_mapping tid = none) :
    handle_poll_answer st tid u opts fresh = (st, []) := by
  unfold handle_poll_answer handle_poll_answer_fallible
  rw [h]

theorem handle_poll_answer_appends (st : BotState) (tid : String) (u : Nat)
    (opts : List Nat) (fresh : String) (db_id idx : Nat)
    (h : st.poll_id_mapping tid = some (db_id, idx)) :
    (handle_poll_answer st tid u (some opts) fresh).1.db.answers
      = st.db.answers ++ opts.map (fun o => Answer.mk db_id u o (current_run st u)) := by
  unfold handle_poll_answer handle_poll_answer_fallible
  rw [h]
  simp only [Option.getD_some, Option.any, List.take_length, decide_eq_true_eq,
    Bool.false_eq_true, if_false, foldl_save_answer]
  cases hu : st.user_data u <;>
    simp [hu, send_poll_db, setUserData]

theorem handle_poll_answer_failure (st : BotState) (tid : String) (u : Nat)
    (opts : List Nat) (fresh : String) (db_id idx k : Nat)
    (h : st.poll_id_mapping tid = some (db_id, idx)) (hk : k < opts.length) :
    handle_poll_answer_fallible st tid u (some opts) fresh (some k)
      = ({ st with db := { st.db with answers := st.db.answers ++ (opts.take k).map (fun o => Answer.mk db_id u o (current_run st u)) } }, [], false) := by
  unfold handle_poll_answer_fallible
  rw [h]
  simp [Option.any, hk, min_eq_left hk.le, foldl_save_answer]

/-! ### Claim theorems -/

/-- C1, counterexample: a poll-answer event whose resolved position (0) does not
equal the current session position (5) of user 7 is NOT dropped: an Answer row
is stored and the position is overwritten to 1, refuting the claim that all
three unresolvable cases leave state unchanged. -/
theorem C1_counterexample :
    stC1.poll_id_mapping "t1" = some (1, 0)
    ∧ (stC1.user_data 7).map (fun d => d.current_poll_index) = some (some 5)
    ∧ stC1.db.answers = []
    ∧ (handle_poll_answer stC1 "t1" 7 (some [0]) "t2").1.db.answers
        = [{ poll_id := 1, user_id := 7, option_index := 0, run_id := 1 }]
    ∧ ((handle_poll_answer stC1 "t1" 7 (some [0]) "t2").1.user_data 7).map
        (fun d => d.current_poll_index) = some (some 1) := by
  refine ⟨rfl, rfl, rfl, rfl, rfl⟩

/-- C1, amended: only the unknown-transport-poll-id case is dropped; when the
transport poll id is not registered, handle_poll_answer stores no Answer,
sends nothing, and leaves the whole state unchanged. -/
theorem C1_unregistered_drop (st : BotState) (tid : String) (u : Nat)
    (opts : Option (List Nat)) (fresh : String)
    (h : st.poll_id_mapping tid = none) :
    handle_poll_answer st tid u opts fresh = (st, []) :=
  handle_poll_answer_unregistered st tid u opts fresh h

/-- C1, witness: concrete state with an empty registry at the concrete event. -/
theorem C1_witness :
    stW1.poll_id_mapping "t9" = none
    ∧ handle_poll_answer stW1 "t9" 7 (some [0]) "t2" = (stW1, []) :=
  ⟨rfl, C1_unregistered_drop stW1 "t9" 7 (some [0]) "t2" rfl⟩

/-- C2, counterexample: the same answer event for the registered poll "t1" of
run 1 processed twice appends two identical Answer rows for the same
(poll, user, run, option), refuting at-most-one-Answer under events processed
by the Controller: there is no position check in handle_poll_answer. -/
theorem C2_counterexample :
    (handle_poll_answer (handle_poll_answer stC2 "t1" 7 (some [0]) "t2").1
        "t1" 7 (some [0]) "t3").1.db.answers
      = [{ poll_id := 1, user_id := 7, option_index := 0, run_id := 1 },
         { poll_id := 1, user_id := 7, option_index := 0, run_id := 1 }]
    ∧ (handle_poll_answer (handle_poll_answer stC2 "t1" 7 (some [0]) "t2").1
        "t1" 7 (some [0]) "t3").1.db.answers.countP
          (fun a => a.poll_id == 1 && (a.user_id == 7 && (a.run_id == 1 && a.option_index == 0)))
      = 2 := by
  refine ⟨rfl, rfl⟩

/-- C2, amended: the Controller performs no duplicate suppression: every event
whose transport poll id is registered appends exactly one Answer row per
selected option, tagged with the current session run number, regardless of how
often the same poll has already been answered in that run. -/
theorem C2_no_duplicate_suppression (st : BotState) (tid : String) (u : Nat)
    (opts : List Nat) (fresh : String) (db_id idx : Nat)
    (h : st.poll_id_mapping tid = some (db_id, idx)) :
    (handle_poll_answer st tid u (some opts) fresh).1.db.answers
      = st.db.answers ++ opts.map (fun o => Answer.mk db_id u o (current_run st u)) :=
  handle_poll_answer_appends st tid u opts fresh db_id idx h

/-- C2, witness: the append equation evaluated at a concrete two-option event. -/
theorem C2_witness :
    stC2.poll_id_mapping "t1" = some (1, 0)
    ∧ (handle_poll_answer stC2 "t1" 7 (some [0, 1]) "t2").1.db.answers
        = stC2.db.answers ++ [0, 1].map (fun o => Answer.mk 1 7 o (current_run stC2 7)) :=
  ⟨rfl, C2_no_duplicate_suppression stC2 "t1" 7 [0, 1] "t2" 1 0 rfl⟩

/-- C3, counterexample: two consecutive restarts with no intervening answer both
assign run number 2 (not 2 then 3), and in a state whose only recorded answer
carries run number 3 a restart assigns 2 rather than 1 + max = 4: restart uses
the count of distinct recorded runs, not the maximum recorded run. -/
theorem C3_counterexample :
    ((restart_survey stC3 7 7 "ta").1.user_data 7).map (fun d => d.run_id) = some (some 2)
    ∧ ((restart_survey (restart_survey stC3 7 7 "ta").1 7 7 "tb").1.user_data 7).map
        (fun d => d.run_id) = some (some 2)
    ∧ maxRunRecorded stC3.db 7 = 1
    ∧ ((restart_survey stC3b 7 7 "tc").1.user_data 7).map (fun d => d.run_id) = some (some 2)
    ∧ maxRunRecorded stC3b.db 7 = 3 := by
  refine ⟨rfl, rfl, rfl, rfl, rfl⟩

/-- C3, amended: restart assigns run number 1 plus the count of distinct run
numbers recorded for the user; a second consecutive restart that records no
answers in between assigns the same number again. -/
theorem C3_restart_uses_distinct_run_count (st : BotState) (c u : Nat) (t t2 : String)
    (ud : UserData) (hpolls : get_polls st.db ≠ []) (hud : st.user_data u = some ud) :
    (restart_survey st c u t).1.user_data u
      = some { polls := some (get_polls st.db), run_id := some (distinctRunsWithAnswer st.db u + 1),
               current_poll_index := some 0 }
    ∧ (restart_survey (restart_survey st c u t).1 c u t2).1.user_data u
      = some { polls := some (get_polls st.db), run_id := some (distinctRunsWithAnswer st.db u + 1),
               current_poll_index := some 0 } := by
  have h1 := restart_survey_user_data st c u t ud hpolls hud
  rw [get_user_runs_eq_distinct] at h1
  refine ⟨h1, ?_⟩
  have hdb : (restart_survey st c u t).1.db = st.db := restart_survey_db st c u t
  have h2 := restart_survey_user_data (restart_survey st c u t).1 c u t2 _
    (by rw [hdb]; exact hpolls) h1
  rw [hdb, get_user_runs_eq_distinct] at h2
  exact h2

/-- C3, witness: concrete restart for a user with no recorded answers assigns
run number 1, and again 1 on an immediate second restart. -/
theorem C3_witness :
    get_polls stW4.db ≠ []
    ∧ stW4.user_data 7 = some { polls := none, run_id := none, current_poll_index := none }
    ∧ ((restart_survey stW4 7 7 "ta").1.user_data 7
        = some { polls := some (get_polls stW4.db),
                 run_id := some (distinctRunsWithAnswer stW4.db 7 + 1),
                 current_poll_index := some 0 }
       ∧ (restart_survey (restart_survey stW4 7 7 "ta").1 7 7 "tb").1.user_data 7
        = some { polls := some (get_polls stW4.db),
                 run_id := some (distinctRunsWithAnswer stW4.db 7 + 1),
                 current_poll_index := some 0 }) :=
  ⟨by decide, rfl, C3_restart_uses_distinct_run_count stW4 7 7 "ta" "tb" _ (by decide) rfl⟩

/-- C4: the run number assigned at start and at restart equals 1 plus the
number of distinct run numbers for which the user has at least one recorded
Answer, and a user with no recorded answers gets run number 1. -/
theorem C4_run_number_assignment (st : BotState) (u c : Nat) (t : String) (ud : UserData)
    (hpolls : get_polls st.db ≠ []) (hud : st.user_data u = some ud) :
    (start st u c t).1.user_data u
      = some { polls := some (get_polls st.db), run_id := some (distinctRunsWithAnswer st.db u + 1),
               current_poll_index := some 0 }
    ∧ (restart_survey st c u t).1.user_data u
      = some { polls := some (get_polls st.db), run_id := some (distinctRunsWithAnswer st.db u + 1),
               current_poll_index := some 0 }
    ∧ (st.db.answers.filter (fun a => a.user_id == u) = [] → get_user_runs st.db u = 1) := by
  have h1 := start_user_data st u c t ud hpolls hud
  have h2 := restart_survey_user_data st c u t ud hpolls hud
  rw [get_user_runs_eq_distinct] at h1 h2
  exact ⟨h1, h2, fun h => get_user_runs_no_answers st.db u h⟩

/-- C4, witness: a user with an empty dictionary and no recorded answers gets
run number 0 + 1 = 1 at start. -/
theorem C4_witness :
    get_polls stW4.db ≠ []
    ∧ stW4.user_data 7 = some { polls := none, run_id := none, current_poll_index := none }
    ∧ ((start stW4 7 7 "ta").1.user_data 7
        = some { polls := some (get_polls stW4.db),
                 run_id := some (distinctRunsWithAnswer stW4.db 7 + 1),
                 current_poll_index := some 0 }
       ∧ (restart_survey stW4 7 7 "ta").1.user_data 7
        = some { polls := some (get_polls stW4.db),
                 run_id := some (distinctRunsWithAnswer stW4.db 7 + 1),
                 current_poll_index := some 0 }
       ∧ (stW4.db.answers.filter (fun a => a.user_id == 7) = [] → get_user_runs stW4.db 7 = 1)) :=
  ⟨by decide, rfl, C4_run_number_assignment stW4 7 7 "ta" _ (by decide) rfl⟩

/-- C5, counterexample: a two-option answer event whose second INSERT fails
leaves exactly one of the two Answer rows appended while the session position
stays at its pre-event value, refuting the all-or-nothing claim. -/
theorem C5_counterexample :
    stC5.db.answers = []
    ∧ (stC5.user_data 7).map (fun d => d.current_poll_index) = some (some 0)
    ∧ (handle_poll_answer_fallible stC5 "t1" 7 (some [0, 1]) "t2" (some 1)).1.db.answers
        = [{ poll_id := 1, user_id := 7, option_index := 0, run_id := 1 }]
    ∧ ((handle_poll_answer_fallible stC5 "t1" 7 (some [0, 1]) "t2" (some 1)).1.user_data 7).map
        (fun d => d.current_poll_index) = some (some 0)
    ∧ (handle_poll_answer_fallible stC5 "t1" 7 (some [0, 1]) "t2" (some 1)).2.2 = false := by
  refine ⟨rfl, rfl, rfl, rfl, rfl⟩

/-- C5, amended: when the k-th INSERT of an answer event fails, exactly the
rows for the first k selected options remain appended (each INSERT commits
separately), the session position and everything else stay at their pre-event
values, and the handler aborts; atomicity as claimed holds only for events
selecting at most one option. -/
theorem C5_failure_keeps_prefix_and_position (st : BotState) (tid : String) (u : Nat)
    (opts : List Nat) (fresh : String) (db_id idx k : Nat)
    (h : st.poll_id_mapping tid = some (db_id, idx)) (hk : k < opts.length) :
    handle_poll_answer_fallible st tid u (some opts) fresh (some k)
      = ({ st with db := { st.db with answers := st.db.answers ++ (opts.take k).map (fun o => Answer.mk db_id u o (current_run st u)) } }, [], false) :=
  handle_poll_answer_failure st tid u opts fresh db_id idx k h hk

/-- C5, witness: the failure equation evaluated at the concrete two-option
event failing on the second INSERT. -/
theorem C5_witness :
    stC5.poll_id_mapping "t1" = some (1, 0)
    ∧ (1 : Nat) < ([0, 1] : List Nat).length
    ∧ handle_poll_answer_fallible stC5 "t1" 7 (some [0, 1]) "t2" (some 1)
      = ({ stC5 with db := { stC5.db with answers := stC5.db.answers ++ (([0, 1] : List Nat).take 1).map (fun o => Answer.mk 1 7 o (current_run stC5 7)) } }, [], false) :=
  ⟨rfl, by decide, C5_failure_keeps_prefix_and_position stC5 "t1" 7 [0, 1] "t2" 1 0 1 rfl (by decide)⟩

/-- C6: in the reset-confirmation sub-flow, declining from either origin leaves
the state (hence the total count of stored Answer rows) unchanged and
re-renders the origin screen, while confirming deletes all stored Answer rows
for all users and shows the message carrying the completion-screen keyboard. -/
theorem C6_reset_confirmation (st : BotState) (u c : Nat) (t : String) :
    button_handler st "reset_no_finish" u c t
      = (st, [Msg.edit "Опрос пройден успешно!" keyboard_finish])
    ∧ button_handler st "reset_no_stats" u c t
      = (st, [Msg.edit (get_stats_text st.db) keyboard_stats])
    ∧ (button_handler st "reset_yes" u c t).1.db.answers = []
    ∧ (button_handler st "reset_yes" u c t).2
      = [Msg.edit "Данные сброшены." keyboard_finish] := by
  refine ⟨rfl, rfl, rfl, rfl⟩

/-- C7: the tally of a poll maps each option index to the number of recorded
Answer rows for that poll with that option index, summed over all users and
all runs, with no filtering by run or user. -/
theorem C7_tally_aggregates_all_runs_users (db : DB) (pid j : Nat) :
    statsGet (get_poll_stats db pid) j = tallySpec db pid j := by
  rw [statsGet_get_poll_stats]
  rfl

/-- C8: starting or restarting with an empty poll catalog sends exactly the
explicit notice and changes nothing: no session fields are stored, no poll is
dispatched, no registry entry is created. -/
theorem C8_empty_catalog_notice_no_session (st : BotState) (u c : Nat) (t : String)
    (h : get_polls st.db = []) :
    start st u c t = (st, [Msg.text c "Опросы не найдены в базе данных"])
    ∧ restart_survey st c u t = (st, [Msg.text c "Опросы не найдены в базе данных"]) := by
  constructor
  · unfold start
    simp [h]
  · unfold restart_survey
    simp [h]

/-- C8, witness: the empty-catalog branch evaluated at a concrete empty state. -/
theorem C8_witness :
    get_polls stW8.db = []
    ∧ (start stW8 7 7 "t" = (stW8, [Msg.text 7 "Опросы не найдены в базе данных"])
       ∧ restart_survey stW8 7 7 "t" = (stW8, [Msg.text 7 "Опросы не найдены в базе данных"])) :=
  ⟨rfl, C8_empty_catalog_notice_no_session stW8 7 7 "t" rfl⟩

/-- C9, counterexample: two labels free of the substring "|||" (one ending in a
single pipe) do not round-trip through add_poll and get_polls, and the empty
option list round-trips to a one-element list holding the empty label,
refuting the claimed precondition. -/
theorem C9_counterexample :
    containsSep ['a', '|'] = false
    ∧ containsSep ['b'] = false
    ∧ (get_polls (add_poll dbEmpty "q" [['a', '|'], ['b']] "general")).map (fun p => p.options)
        = [[['a'], ['|', 'b']]]
    ∧ ([['a'], ['|', 'b']] : List (List Char)) ≠ [['a', '|'], ['b']]
    ∧ (get_polls (add_poll dbEmpty "q2" ([] : List (List Char)) "general")).map
        (fun p => p.options) = [[([] : List Char)]] := by
  refine ⟨rfl, rfl, rfl, by decide, rfl⟩

/-- C9, amended: the options of a poll created via add_poll round-trip through
get_polls exactly as passed provided the list is nonempty, no label contains
the substring "|||", and no label other than the last ends with the character
that the separator is built from. -/
theorem C9_options_roundtrip (db : DB) (q : String) (opts : List (List Char)) (ty : String)
    (h0 : opts ≠ []) (h1 : ∀ l ∈ opts, containsSep l = false)
    (h2 : ∀ l ∈ opts.dropLast, l.getLast? ≠ some '|') :
    (get_polls (add_poll db q opts ty)).getLast?
      = some { id := db.nextPollId, question := q, options := opts } := by
  unfold add_poll get_polls
  rw [List.map_append]
  simp only [List.map_cons, List.map_nil]
  rw [List.getLast?_concat, splitSep_joinSep opts h0 h1 h2]

/-- C9, witness: the round-trip evaluated at a concrete two-label poll. -/
theorem C9_witness :
    ([['A'], ['B']] : List (List Char)) ≠ []
    ∧ (∀ l ∈ ([['A'], ['B']] : List (List Char)), containsSep l = false)
    ∧ (∀ l ∈ ([['A'], ['B']] : List (List Char)).dropLast, l.getLast? ≠ some '|')
    ∧ (get_polls (add_poll dbEmpty "Q" [['A'], ['B']] "general")).getLast?
        = some { id := dbEmpty.nextPollId, question := "Q", options := [['A'], ['B']] } :=
  ⟨by decide, by decide, by decide,
   C9_options_roundtrip dbEmpty "Q" [['A'], ['B']] "general" (by decide) (by decide) (by decide)⟩

/-- C10: in the rendered statistics, the displayed total of a poll counts
exactly the recorded Answers whose option index is a valid index into the
option list (each per-option row counts only its own index), and the Answers
with an out-of-range index are exactly the rows omitted relative to counting
every Answer of the poll, even though the underlying tally includes them. -/
theorem C10_stats_text_counts_valid_options_only (db : DB) (p : PollView) :
    (poll_section db p).2
      = db.answers.countP (fun a => a.poll_id == p.id && decide (a.option_index < p.options.length))
    ∧ (poll_section db p).2
        + db.answers.countP (fun a => a.poll_id == p.id && decide (p.options.length ≤ a.option_index))
      = db.answers.countP (fun a => a.poll_id == p.id) := by
  refine ⟨poll_section_total db p, ?_⟩
  rw [poll_section_total]
  exact countP_split_valid db.answers p.id p.options.length

end PhycoBot
